import Mathlib

/-!
Verification of the database-eligibility filter for file upload in
`superset/views/database/forms.py` (`UploadToDatabaseForm`).

The filter consists of `file_allowed_dbs`, which queries the session for
connections with `allow_file_upload = True` and keeps those satisfying
`at_least_one_schema_is_allowed` and `is_engine_allowed_to_file_upl`.

Modelling choices:
- `Database` is the record of connection attributes the filter reads.
  `get_schema_access_for_file_upload` (a method of the model class defined
  outside this module) is represented as the optional list of restricted
  schema names it returns.
- `security_manager` is the external authorization oracle; its two queries
  are fields of `SecurityManager`.  Their results are wrapped in `Option`
  so that an absent/null response is representable; Python's truthiness
  test (`if x:`) is modelled by the `truthy*` functions, under which `None`
  and the empty collection are falsy.
- `db.session.query(Database).filter_by(allow_file_upload=True).all()` is
  modelled as filtering an explicit session list of configured connections.
-/

/-- Engine specification of a database driver: the filter reads only its
`supports_file_upload` capability flag. -/
structure DbEngineSpec where
  supports_file_upload : Bool
  deriving DecidableEq, Repr

/-- A configured database connection, with the attributes read by the
upload-eligibility filter.  `get_schema_access_for_file_upload` holds the
optional restricted-schema set returned by the model method of that name. -/
structure Database where
  id : Nat
  database_name : String
  allow_file_upload : Bool
  db_engine_spec : DbEngineSpec
  get_schema_access_for_file_upload : Option (List String)
  deriving DecidableEq, Repr

/-- The authorization oracle (`security_manager`).  Responses are wrapped
in `Option` so that an absent/null answer is representable; the code only
ever inspects them through Python truthiness. -/
structure SecurityManager where
  can_access_database : Database → Option Bool
  get_schemas_accessible_by_user :
    Database → List String → Bool → Option (List String)

/-- Python truthiness of an optional boolean: `None` and `False` are falsy. -/
def truthyBool : Option Bool → Bool
  | none => false
  | some b => b

/-- Python truthiness of an optional collection of strings: `None` and the
empty collection are falsy. -/
def truthyList : Option (List String) → Bool
  | none => false
  | some l => !l.isEmpty

/-- `UploadToDatabaseForm.at_least_one_schema_is_allowed`: true when the
user can access the database, or the database declares a truthy
restricted-schema set and the user can access at least one schema in it. -/
def at_least_one_schema_is_allowed (sm : SecurityManager)
    (database : Database) : Bool :=
  if truthyBool (sm.can_access_database database) then
    true
  else
    let schemas := database.get_schema_access_for_file_upload
    if truthyList schemas &&
        truthyList
          (sm.get_schemas_accessible_by_user database (schemas.getD []) false) then
      true
    else
      false

/-- `UploadToDatabaseForm.is_engine_allowed_to_file_upl`: true exactly when
the engine specification supports file upload. -/
def is_engine_allowed_to_file_upl (database : Database) : Bool :=
  if database.db_engine_spec.supports_file_upload then
    true
  else
    false

/-- `UploadToDatabaseForm.file_allowed_dbs`: the session connections with
`allow_file_upload = True`, filtered by the two predicates above. -/
def file_allowed_dbs (sm : SecurityManager)
    (session : List Database) : List Database :=
  let file_enabled_dbs := session.filter (fun d => d.allow_file_upload)
  file_enabled_dbs.filter (fun file_enabled_db =>
    at_least_one_schema_is_allowed sm file_enabled_db &&
      is_engine_allowed_to_file_upl file_enabled_db)

/-- Membership in the filter result, unfolded to the raw conditions. -/
lemma mem_file_allowed_dbs (sm : SecurityManager) (session : List Database)
    (d : Database) :
    d ∈ file_allowed_dbs sm session ↔
      d ∈ session ∧ d.allow_file_upload = true ∧
        at_least_one_schema_is_allowed sm d = true ∧
        is_engine_allowed_to_file_upl d = true := by
  simp only [file_allowed_dbs, List.mem_filter, Bool.and_eq_true]
  tauto

/-- The schema predicate, characterised as the disjunction from the spec. -/
lemma at_least_one_schema_is_allowed_iff (sm : SecurityManager)
    (d : Database) :
    at_least_one_schema_is_allowed sm d = true ↔
      truthyBool (sm.can_access_database d) = true ∨
        (truthyList d.get_schema_access_for_file_upload = true ∧
          truthyList (sm.get_schemas_accessible_by_user d
            (d.get_schema_access_for_file_upload.getD []) false) = true) := by
  unfold at_least_one_schema_is_allowed
  by_cases hca : truthyBool (sm.can_access_database d) = true
  · simp [hca]
  · simp [hca, Bool.and_eq_true]

/-- The engine predicate, characterised by the capability flag. -/
lemma is_engine_allowed_to_file_upl_iff (d : Database) :
    is_engine_allowed_to_file_upl d = true ↔
      d.db_engine_spec.supports_file_upload = true := by
  unfold is_engine_allowed_to_file_upl
  by_cases h : d.db_engine_spec.supports_file_upload = true <;> simp [h]

/-! Concrete connections and oracles used by the witness theorems. -/

/-- An engine specification that supports file upload. -/
def specUpload : DbEngineSpec := { supports_file_upload := true }

/-- An engine specification that no longer supports file upload. -/
def specLegacy : DbEngineSpec := { supports_file_upload := false }

/-- Upload-allowed connection with no restricted-schema set. -/
def dbA : Database :=
  { id := 1, database_name := "examples", allow_file_upload := true,
    db_engine_spec := specUpload,
    get_schema_access_for_file_upload := none }

/-- Connection whose upload-allow flag is off. -/
def dbNoAllow : Database :=
  { id := 2, database_name := "reports", allow_file_upload := false,
    db_engine_spec := specUpload,
    get_schema_access_for_file_upload := none }

/-- Upload-allowed connection restricted to the `sales` schema. -/
def dbC : Database :=
  { id := 3, database_name := "warehouse", allow_file_upload := true,
    db_engine_spec := specUpload,
    get_schema_access_for_file_upload := some ["sales"] }

/-- Upload-allowed connection on a legacy engine without upload support. -/
def dbLegacy : Database :=
  { id := 4, database_name := "gsheets", allow_file_upload := true,
    db_engine_spec := specLegacy,
    get_schema_access_for_file_upload := none }

/-- Oracle granting full database access to every connection. -/
def smFullAccess : SecurityManager :=
  { can_access_database := fun _ => some true,
    get_schemas_accessible_by_user := fun _ _ _ => some [] }

/-- Oracle granting no database access and only the `sales` schema. -/
def smSalesOnly : SecurityManager :=
  { can_access_database := fun _ => some false,
    get_schemas_accessible_by_user := fun _ schemas _ =>
      some (schemas.filter (fun s => s == "sales")) }

/-- Oracle granting no database access and no schemas. -/
def smNoAccess : SecurityManager :=
  { can_access_database := fun _ => some false,
    get_schemas_accessible_by_user := fun _ _ _ => some [] }

/-- Oracle whose lookups return absent/null responses. -/
def smNullResponses : SecurityManager :=
  { can_access_database := fun _ => none,
    get_schemas_accessible_by_user := fun _ _ _ => none }

/-- C1: for a configured connection flagged upload-allowed, membership in
the result of `file_allowed_dbs` holds iff (the oracle grants database
access, or the connection declares a non-empty restricted-schema set whose
accessible subset is non-empty) and the engine-capability flag for file
upload is true. -/
theorem C1_mem_iff_access_and_capability (sm : SecurityManager)
    (session : List Database) (d : Database) (hmem : d ∈ session)
    (hallow : d.allow_file_upload = true) :
    d ∈ file_allowed_dbs sm session ↔
      (truthyBool (sm.can_access_database d) = true ∨
        (truthyList d.get_schema_access_for_file_upload = true ∧
          truthyList (sm.get_schemas_accessible_by_user d
            (d.get_schema_access_for_file_upload.getD []) false) = true)) ∧
      d.db_engine_spec.supports_file_upload = true := by
  constructor
  · intro h
    rcases (mem_file_allowed_dbs sm session d).1 h with ⟨_, _, hs, he⟩
    exact ⟨(at_least_one_schema_is_allowed_iff sm d).1 hs,
      (is_engine_allowed_to_file_upl_iff d).1 he⟩
  · rintro ⟨hs, he⟩
    exact (mem_file_allowed_dbs sm session d).2
      ⟨hmem, hallow, (at_least_one_schema_is_allowed_iff sm d).2 hs,
        (is_engine_allowed_to_file_upl_iff d).2 he⟩

/-- Witness for C1 at `dbA` and the full-access oracle. -/
theorem C1_mem_iff_access_and_capability_witness :
    dbA ∈ file_allowed_dbs smFullAccess [dbA] ↔
      (truthyBool (smFullAccess.can_access_database dbA) = true ∨
        (truthyList dbA.get_schema_access_for_file_upload = true ∧
          truthyList (smFullAccess.get_schemas_accessible_by_user dbA
            (dbA.get_schema_access_for_file_upload.getD []) false) = true)) ∧
      dbA.db_engine_spec.supports_file_upload = true :=
  C1_mem_iff_access_and_capability smFullAccess [dbA] dbA (by simp) rfl

/-- C2: a connection whose `allow_file_upload` flag is false never appears
in the result of `file_allowed_dbs`, whatever the oracle and session. -/
theorem C2_not_allowed_never_included (sm : SecurityManager)
    (session : List Database) (d : Database)
    (hallow : d.allow_file_upload = false) :
    d ∉ file_allowed_dbs sm session := by
  intro h
  rcases (mem_file_allowed_dbs sm session d).1 h with ⟨_, ha, _, _⟩
  rw [hallow] at ha
  exact Bool.false_ne_true ha

/-- Witness for C2 at `dbNoAllow` and the full-access oracle. -/
theorem C2_not_allowed_never_included_witness :
    dbNoAllow ∉ file_allowed_dbs smFullAccess [dbNoAllow] :=
  C2_not_allowed_never_included smFullAccess [dbNoAllow] dbNoAllow rfl

/-- C3: a connection whose engine specification does not support file
upload never appears in the result of `file_allowed_dbs`, even when the
oracle grants full access and the allow-flag is true. -/
theorem C3_unsupported_engine_never_included (sm : SecurityManager)
    (session : List Database) (d : Database)
    (hcap : d.db_engine_spec.supports_file_upload = false) :
    d ∉ file_allowed_dbs sm session := by
  intro h
  rcases (mem_file_allowed_dbs sm session d).1 h with ⟨_, _, _, he⟩
  rw [(is_engine_allowed_to_file_upl_iff d).1 he] at hcap
  exact Bool.false_ne_true hcap.symm

/-- Witness for C3 at the legacy-engine connection under full access. -/
theorem C3_unsupported_engine_never_included_witness :
    dbLegacy ∉ file_allowed_dbs smFullAccess [dbLegacy] :=
  C3_unsupported_engine_never_included smFullAccess [dbLegacy] dbLegacy rfl

/-- C4: a configured connection with full database access and no declared
restricted-schema set is in the result iff both its allow-flag and its
engine-capability flag are true. -/
theorem C4_full_access_no_schemas_iff_flags (sm : SecurityManager)
    (session : List Database) (d : Database) (hmem : d ∈ session)
    (hca : truthyBool (sm.can_access_database d) = true)
    (hns : truthyList d.get_schema_access_for_file_upload = false) :
    d ∈ file_allowed_dbs sm session ↔
      d.allow_file_upload = true ∧
        d.db_engine_spec.supports_file_upload = true := by
  rw [mem_file_allowed_dbs, at_least_one_schema_is_allowed_iff,
    is_engine_allowed_to_file_upl_iff]
  constructor
  · rintro ⟨_, ha, _, he⟩
    exact ⟨ha, he⟩
  · rintro ⟨ha, he⟩
    exact ⟨hmem, ha, Or.inl hca, he⟩

/-- Witness for C4 at `dbA` and the full-access oracle. -/
theorem C4_full_access_no_schemas_iff_flags_witness :
    dbA ∈ file_allowed_dbs smFullAccess [dbA] ↔
      dbA.allow_file_upload = true ∧
        dbA.db_engine_spec.supports_file_upload = true :=
  C4_full_access_no_schemas_iff_flags smFullAccess [dbA] dbA
    (by simp) rfl rfl

/-- C5: a configured connection without full access, with a non-empty
restricted-schema set and a non-empty accessible subset of it, is included
in the result when its allow-flag and engine-capability flag are true. -/
theorem C5_schema_access_included (sm : SecurityManager)
    (session : List Database) (d : Database) (hmem : d ∈ session)
    (hca : truthyBool (sm.can_access_database d) = false)
    (hs : truthyList d.get_schema_access_for_file_upload = true)
    (hacc : truthyList (sm.get_schemas_accessible_by_user d
      (d.get_schema_access_for_file_upload.getD []) false) = true)
    (hallow : d.allow_file_upload = true)
    (hcap : d.db_engine_spec.supports_file_upload = true) :
    d ∈ file_allowed_dbs sm session :=
  (mem_file_allowed_dbs sm session d).2
    ⟨hmem, hallow,
      (at_least_one_schema_is_allowed_iff sm d).2 (Or.inr ⟨hs, hacc⟩),
      (is_engine_allowed_to_file_upl_iff d).2 hcap⟩

/-- Witness for C5 at `dbC` and the sales-only oracle. -/
theorem C5_schema_access_included_witness :
    dbC ∈ file_allowed_dbs smSalesOnly [dbC] :=
  C5_schema_access_included smSalesOnly [dbC] dbC (by simp)
    rfl rfl (by decide) rfl rfl

/-- C6: a connection without full database access that declares no
restricted-schema set (absent or empty) is excluded from the result,
regardless of its flags. -/
theorem C6_no_access_no_schemas_excluded (sm : SecurityManager)
    (session : List Database) (d : Database)
    (hca : truthyBool (sm.can_access_database d) = false)
    (hns : truthyList d.get_schema_access_for_file_upload = false) :
    d ∉ file_allowed_dbs sm session := by
  intro h
  rcases (mem_file_allowed_dbs sm session d).1 h with ⟨_, _, hs, _⟩
  rcases (at_least_one_schema_is_allowed_iff sm d).1 hs with hc | ⟨ht, _⟩
  · rw [hca] at hc
    exact Bool.false_ne_true hc
  · rw [hns] at ht
    exact Bool.false_ne_true ht

/-- Witness for C6 at `dbA` and the no-access oracle. -/
theorem C6_no_access_no_schemas_excluded_witness :
    dbA ∉ file_allowed_dbs smNoAccess [dbA] :=
  C6_no_access_no_schemas_excluded smNoAccess [dbA] dbA rfl rfl

/-- C7: the result of `file_allowed_dbs` is a stable filter of the input:
it is a sublist of the session list, so the relative order of the input
connections is preserved. -/
theorem C7_result_is_stable_filter (sm : SecurityManager)
    (session : List Database) :
    (file_allowed_dbs sm session).Sublist session := by
  unfold file_allowed_dbs
  exact (List.filter_sublist _).trans (List.filter_sublist _)

/-- C8: `file_allowed_dbs` is pure and deterministic: two oracles that give
equal responses on the session connections yield equal results, and every
returned connection is one of the (unmutated) input connections. -/
theorem C8_pure_deterministic (sm₁ sm₂ : SecurityManager)
    (session : List Database)
    (hca : ∀ d ∈ session, sm₁.can_access_database d = sm₂.can_access_database d)
    (hsch : ∀ d ∈ session, ∀ schemas hierarchical,
      sm₁.get_schemas_accessible_by_user d schemas hierarchical =
        sm₂.get_schemas_accessible_by_user d schemas hierarchical) :
    file_allowed_dbs sm₁ session = file_allowed_dbs sm₂ session ∧
      ∀ d ∈ file_allowed_dbs sm₁ session, d ∈ session := by
  constructor
  · unfold file_allowed_dbs
    apply List.filter_congr
    intro d hd
    have hd' : d ∈ session := (List.mem_filter.1 hd).1
    have heq : at_least_one_schema_is_allowed sm₁ d =
        at_least_one_schema_is_allowed sm₂ d := by
      unfold at_least_one_schema_is_allowed
      simp only [hca d hd', hsch d hd']
    rw [heq]
  · intro d hd
    exact ((mem_file_allowed_dbs sm₁ session d).1 hd).1

/-- Witness for C8 with the full-access oracle on both sides. -/
theorem C8_pure_deterministic_witness :
    file_allowed_dbs smFullAccess [dbA, dbC] =
        file_allowed_dbs smFullAccess [dbA, dbC] ∧
      ∀ d ∈ file_allowed_dbs smFullAccess [dbA, dbC], d ∈ [dbA, dbC] :=
  C8_pure_deterministic smFullAccess smFullAccess [dbA, dbC]
    (fun _ _ => rfl) (fun _ _ _ _ => rfl)

/-- C9: absent/null oracle responses are handled fail-closed: when the
database-access lookup returns `none` or `some false` and the
accessible-schemas lookup for the connection's declared set returns `none`,
the connection is excluded from the result (no error is raised: the filter
is a total function). -/
theorem C9_fail_closed_on_null_responses (sm : SecurityManager)
    (session : List Database) (d : Database)
    (hca : sm.can_access_database d = none ∨
      sm.can_access_database d = some false)
    (hacc : sm.get_schemas_accessible_by_user d
      (d.get_schema_access_for_file_upload.getD []) false = none) :
    d ∉ file_allowed_dbs sm session := by
  intro h
  rcases (mem_file_allowed_dbs sm session d).1 h with ⟨_, _, hs, _⟩
  rcases (at_least_one_schema_is_allowed_iff sm d).1 hs with hc | ⟨_, hacc'⟩
  · rcases hca with hnone | hfalse
    · rw [hnone] at hc
      exact Bool.false_ne_true hc
    · rw [hfalse] at hc
      exact Bool.false_ne_true hc
  · rw [hacc] at hacc'
    exact Bool.false_ne_true hacc'

/-- Witness for C9 at `dbC` and the null-response oracle. -/
theorem C9_fail_closed_on_null_responses_witness :
    dbC ∉ file_allowed_dbs smNullResponses [dbC] :=
  C9_fail_closed_on_null_responses smNullResponses [dbC] dbC
    (Or.inl rfl) rfl

/-- C10: a connection without full access whose declared restricted-schema
set is non-empty but whose accessible subset is empty is excluded from the
result, even when both its flags are true. -/
theorem C10_empty_accessible_subset_excluded (sm : SecurityManager)
    (session : List Database) (d : Database)
    (hca : truthyBool (sm.can_access_database d) = false)
    (hs : truthyList d.get_schema_access_for_file_upload = true)
    (hacc : sm.get_schemas_accessible_by_user d
      (d.get_schema_access_for_file_upload.getD []) false = some [])
    (hallow : d.allow_file_upload = true)
    (hcap : d.db_engine_spec.supports_file_upload = true) :
    d ∉ file_allowed_dbs sm session := by
  intro h
  rcases (mem_file_allowed_dbs sm session d).1 h with ⟨_, _, hsch, _⟩
  rcases (at_least_one_schema_is_allowed_iff sm d).1 hsch with hc | ⟨_, hacc'⟩
  · rw [hca] at hc
    exact Bool.false_ne_true hc
  · rw [hacc] at hacc'
    exact Bool.false_ne_true hacc'

/-- Witness for C10 at `dbC` and the no-access oracle. -/
theorem C10_empty_accessible_subset_excluded_witness :
    dbC ∉ file_allowed_dbs smNoAccess [dbC] :=
  C10_empty_accessible_subset_excluded smNoAccess [dbC] dbC
    rfl rfl rfl rfl rfl
